import Mathlib

/-!
Colour filter composition (src/core/SkColorFilter.cpp)

A shallow embedding of the colour filter graph of SkColorFilter.cpp.

* A filter object is a value of `SkColorFilter`: either a leaf (an object of one of the
  concrete filter classes, which live outside this file) or an `SkComposeColorFilter`
  holding `fOuter`, `fInner` and `fComposedFilterCount`.
* The virtual methods of the leaf classes are not part of the translated file.  They are
  collected in the record `Env` and every translated function takes that record as its
  first argument.
* `SkASSERT` is translated as in a debug build: a failed assertion stops the call, which
  is the `Except.error` outcome.  A null pointer is `none`.
* A span (`const SkPMColor shader[]`, `SkPMColor result[]`) is a list; a method that
  writes into `result` returns the new contents of `result`.
-/

/-! ## Data model -/

/-- Packed premultiplied colour, a 32-bit word. -/
abbrev SkPMColor := Nat

/-- Premultiplied float colour.  The four channels are kept as the bit patterns of the
floats; the translated code only moves these values around. -/
structure SkPM4f where
  r : Nat
  g : Nat
  b : Nat
  a : Nat
deriving DecidableEq, Repr

/-- Filter objects.  `leaf k` is the object number `k` of some concrete leaf class,
`compose fOuter fInner fComposedFilterCount` is an `SkComposeColorFilter` with its three
fields (SkColorFilter.cpp lines 127-129). -/
inductive SkColorFilter where
  | leaf (id : Nat)
  | compose (fOuter : SkColorFilter) (fInner : SkColorFilter) (fComposedFilterCount : Int)
deriving DecidableEq, Repr

/-- A GPU context; the translated code only hands it on to the children. -/
abbrev GrContext := Nat

/-- Fragment stages.  `stage n` is a stage produced by a leaf class, `series stages` is a
stage that runs the listed stages one after the other, first to last. -/
inductive GrFragmentProcessor where
  | stage (id : Nat)
  | series (stages : List GrFragmentProcessor)

/-- Modelled from the spec: `GrFragmentProcessor::RunInSeries(series, cnt)` is not among the
sources.  The spec says that the stages of the children are chained into a series, so the
model returns the stage that runs the first `cnt` entries of the array in order. -/
def GrFragmentProcessor.RunInSeries (series : List GrFragmentProcessor) (cnt : Int) :
    Option GrFragmentProcessor :=
  some (GrFragmentProcessor.series (series.take cnt.toNat))

/-- The surroundings of the translated file: the overrides of the leaf classes and the
one flag constant of SkColorFilter.h that the file reads.

* `kSupports4f_Flag`: the mask tested by `supports4f()`.
* `getFlags k`: the `getFlags()` override of leaf `k` (used modulo `2^32`).
* `filterSpan k shader count result`: the contents of `result` after the call.
* `filterSpan4f k`: `none` when leaf `k` does not override `filterSpan4f`, so that the
  base class body runs; otherwise the override.
* `newComposed k inner`: the fusion hook of leaf `k`; `none` is a null return.
* `asFragmentProcessor k context`: the fragment stage leaf `k` offers for a GPU context;
  `none` is a null return. -/
structure Env where
  kSupports4f_Flag : Nat
  getFlags : Nat → Nat
  filterSpan : Nat → List SkPMColor → Int → List SkPMColor → List SkPMColor
  filterSpan4f : Nat → Option (List SkPM4f → Int → List SkPM4f → List SkPM4f)
  newComposed : Nat → SkColorFilter → Option SkColorFilter
  asFragmentProcessor : Nat → GrContext → Option GrFragmentProcessor

deriving instance DecidableEq for Except

/-- SkColorFilter.cpp line 63. -/
def SK_MAX_COMPOSE_COLORFILTER_COUNT : Int := 4

/-- Debug-build `SkASSERT(cond)`: continue when the condition holds, stop otherwise. -/
def SkASSERT (cond : Bool) (msg : String) : Except String Unit :=
  if cond then Except.ok () else Except.error msg

namespace SkColorFilter

/-! ## Virtual methods -/

/-- `getFlags()`.  Leaves answer through `Env` (a `uint32_t`); the compose node is
lines 67-70: `fOuter->getFlags() & fInner->getFlags()`. -/
def getFlags (V : Env) : SkColorFilter → Nat
  | leaf k => V.getFlags k % 2 ^ 32
  | compose fOuter fInner _ => getFlags V fOuter &&& getFlags V fInner

/-- `supports4f()` of SkColorFilter.h: `SkToBool(this->getFlags() & kSupports4f_Flag)`. -/
def supports4f (V : Env) (f : SkColorFilter) : Bool :=
  (getFlags V f &&& V.kSupports4f_Flag) != 0

/-- Modelled from the spec: the base-class body of `privateComposedFilterCount()` is in
SkColorFilter.h, which is not among the sources; a leaf stands for one filter.  The
compose node is lines 123-125 and returns its cached field. -/
def privateComposedFilterCount : SkColorFilter → Int
  | leaf _ => 1
  | compose _ _ fComposedFilterCount => fComposedFilterCount

/-- The fusion hook `outer->newComposed(inner)`.  A leaf answers through `Env`.
Modelled from the spec: `SkComposeColorFilter` (lines 65-134) has no override, so it runs
the base-class body of SkColorFilter.h, which is not among the sources; the hook is
type-specific and a class without one produces no fused filter. -/
def newComposed (V : Env) : SkColorFilter → SkColorFilter → Option SkColorFilter
  | leaf k, inner => V.newComposed k inner
  | compose _ _ _, _ => none

/-- `filterSpan(shader, count, result)`, returning the new contents of `result`.
Compose node, lines 72-75: the second call reads and writes `result`. -/
def filterSpan (V : Env) : SkColorFilter → List SkPMColor → Int → List SkPMColor → List SkPMColor
  | leaf k, shader, count, result => V.filterSpan k shader count result
  | compose fOuter fInner _, shader, count, result =>
      let result1 := filterSpan V fInner shader count result
      filterSpan V fOuter result1 count result1

/-- Base class `SkColorFilter::filterSpan4f`, lines 33-39: both branches assert false. -/
def baseFilterSpan4f (V : Env) (this : SkColorFilter) (_shader : List SkPM4f) (_count : Int)
    (result : List SkPM4f) : Except String (List SkPM4f) :=
  if supports4f V this then
    match SkASSERT false "colorfilter supports4f but didn't override" with
    | Except.error e => Except.error e
    | Except.ok _ => Except.ok result
  else
    match SkASSERT false "filterSpan4f called but not supported" with
    | Except.error e => Except.error e
    | Except.ok _ => Except.ok result

/-- `filterSpan4f(shader, count, result)`.  A leaf runs its override when it has one and
the base-class body otherwise.  Compose node, lines 77-82. -/
def filterSpan4f (V : Env) :
    SkColorFilter → List SkPM4f → Int → List SkPM4f → Except String (List SkPM4f)
  | leaf k, shader, count, result =>
      match V.filterSpan4f k with
      | some f => Except.ok (f shader count result)
      | none => baseFilterSpan4f V (leaf k) shader count result
  | compose fOuter fInner _, shader, count, result =>
      match SkASSERT (supports4f V fInner) "fInner->supports4f()" with
      | Except.error e => Except.error e
      | Except.ok _ =>
        match SkASSERT (supports4f V fOuter) "fOuter->supports4f()" with
        | Except.error e => Except.error e
        | Except.ok _ =>
          match filterSpan4f V fInner shader count result with
          | Except.error e => Except.error e
          | Except.ok result1 => filterSpan4f V fOuter result1 count result1

/-- `asFragmentProcessor(context)`.  A leaf answers through `Env`.  Compose node, lines
94-102: both children are asked, a null from either gives null, otherwise the array
`{ innerFP, outerFP }` goes to `RunInSeries` with count 2. -/
def asFragmentProcessor (V : Env) (context : GrContext) :
    SkColorFilter → Option GrFragmentProcessor
  | leaf k => V.asFragmentProcessor k context
  | compose fOuter fInner _ =>
      let innerFP := asFragmentProcessor V context fInner
      let outerFP := asFragmentProcessor V context fOuter
      match innerFP, outerFP with
      | some i, some o => GrFragmentProcessor.RunInSeries [i, o] 2
      | _, _ => none

end SkColorFilter

namespace SkComposeColorFilter

/-- The private constructor, lines 114-121, with its two assertions. -/
def ctor (outer inner : SkColorFilter) (composedFilterCount : Int) :
    Except String SkColorFilter :=
  match SkASSERT (decide (composedFilterCount ≥ 2)) "composedFilterCount >= 2" with
  | Except.error e => Except.error e
  | Except.ok _ =>
    match SkASSERT (decide (composedFilterCount ≤ SK_MAX_COMPOSE_COLORFILTER_COUNT))
        "composedFilterCount <= SK_MAX_COMPOSE_COLORFILTER_COUNT" with
    | Except.error e => Except.error e
    | Except.ok _ => Except.ok (SkColorFilter.compose outer inner composedFilterCount)

end SkComposeColorFilter

namespace SkColorFilter

/-- `SkColorFilter::CreateComposeFilter(outer, inner)`, lines 144-163.  The outcome is an
assertion failure of the constructor, a null pointer (`none`) or a filter. -/
def CreateComposeFilter (V : Env) (outer inner : Option SkColorFilter) :
    Except String (Option SkColorFilter) :=
  match outer with
  | none => Except.ok inner
  | some o =>
    match inner with
    | none => Except.ok (some o)
    | some i =>
      match newComposed V o i with
      | some composition => Except.ok (some composition)
      | none =>
        let count := privateComposedFilterCount i + privateComposedFilterCount o
        if count > SK_MAX_COMPOSE_COLORFILTER_COUNT then
          Except.ok none
        else
          match SkComposeColorFilter.ctor o i count with
          | Except.error e => Except.error e
          | Except.ok node => Except.ok (some node)

/-- The filter objects that can exist at run time: every compose node satisfies the two
assertions of its constructor and caches the sum computed on line 158.  On such objects
the `int` addition of line 158 cannot overflow. -/
def wellFormed : SkColorFilter → Bool
  | leaf _ => true
  | compose fOuter fInner c =>
      wellFormed fOuter && wellFormed fInner &&
      decide (c = privateComposedFilterCount fInner + privateComposedFilterCount fOuter) &&
      decide (2 ≤ c) && decide (c ≤ SK_MAX_COMPOSE_COLORFILTER_COUNT)

end SkColorFilter

/-! ## Serialization (lines 108-111 and 136-140) -/

/-- Modelled from the spec: SkWriteBuffer and SkReadBuffer are not among the sources.
The spec says that a compose node is written as two nested filter references and read
back in the same order; a read that fails yields no filter.  `β` is the state of a
buffer, `writeFlattenable b f` the state after `buffer.writeFlattenable(f)`, and
`readColorFilter b` the pointer returned by `buffer.readColorFilter()` together with the
state after the read. -/
structure SkBuffer (β : Type) where
  writeFlattenable : β → SkColorFilter → β
  readColorFilter : β → Option SkColorFilter × β

namespace SkBuffer

/-- Modelled from the spec: a buffer is a stream, written at its end and read from its
front, so that filters are read back in the order in which they were written.  What a
buffer yields first it still yields first after one more write, and that write is found
again behind it.  The law speaks of single writes and reads only. -/
def IsStream {β : Type} (B : SkBuffer β) : Prop :=
  ∀ (b b' : β) (f g : SkColorFilter),
    B.readColorFilter b = (some g, b') →
    B.readColorFilter (B.writeFlattenable b f) = (some g, B.writeFlattenable b' f)

/-- Filter `f` reads back as itself: written alone to the buffer state `b0` and read
again, it yields `f` and leaves the state `b0`. -/
def ReadsBack {β : Type} (B : SkBuffer β) (b0 : β) (f : SkColorFilter) : Prop :=
  B.readColorFilter (B.writeFlattenable b0 f) = (some f, b0)

end SkBuffer

namespace SkComposeColorFilter

/-- `flatten(buffer)`, lines 108-111: writes `fOuter`, then `fInner`. -/
def flatten {β : Type} (B : SkBuffer β) (fOuter fInner : SkColorFilter) (buffer : β) : β :=
  B.writeFlattenable (B.writeFlattenable buffer fOuter) fInner

/-- `CreateProc(buffer)`, lines 136-140: reads `outer`, then `inner`, then calls
`CreateComposeFilter(outer, inner)`.  Returns the outcome and the buffer state. -/
def CreateProc {β : Type} (V : Env) (B : SkBuffer β) (buffer : β) :
    Except String (Option SkColorFilter) × β :=
  let outer := B.readColorFilter buffer
  let inner := B.readColorFilter outer.2
  (SkColorFilter.CreateComposeFilter V outer.1 inner.1, inner.2)

end SkComposeColorFilter

/-! ## A concrete environment

Three families of leaf classes, used to evaluate the definitions on concrete inputs. -/

/-- A leaf that writes `f (shader[i])` to `result[i]` for `i < count`. -/
def writeSpan {α : Type} (f : α → α) (shader : List α) (count : Int) (result : List α) :
    List α :=
  (shader.take count.toNat).map f ++ result.drop count.toNat

/-- The per-pixel function of demo leaf `k`: below 100, even leaves add one and odd leaves
double; leaves 100-199 add `k - 100`; leaves from 200 on write the constant `k - 200`. -/
def demoPixel (k : Nat) (x : Nat) : Nat :=
  if k < 100 then (if k % 2 = 0 then (x + 1) % 2 ^ 32 else (2 * x) % 2 ^ 32)
  else if k < 200 then (x + (k - 100)) % 2 ^ 32
  else (k - 200) % 2 ^ 32

/-- The fusion hook of demo leaf `k`: two adding leaves fuse into one adding leaf, and a
constant leaf absorbs whatever runs before it. -/
def demoNewComposed (k : Nat) (inner : SkColorFilter) : Option SkColorFilter :=
  if k < 100 then none
  else if k < 200 then
    match inner with
    | SkColorFilter.leaf j =>
        if 100 ≤ j ∧ j < 200 then some (SkColorFilter.leaf (100 + ((k - 100) + (j - 100)) % 100))
        else none
    | SkColorFilter.compose _ _ _ => none
  else some (SkColorFilter.leaf k)

/-- Demo environment: the flag word of leaf `k` is `k % 4` (bit 0 alpha unchanged, bit 1
float support), exactly the leaves that advertise float support override
`filterSpan4f`, and the leaves with `k % 8 < 4` offer a fragment stage. -/
def demoEnv : Env where
  kSupports4f_Flag := 2
  getFlags := fun k => k % 4
  filterSpan := fun k shader count result => writeSpan (demoPixel k) shader count result
  filterSpan4f := fun k =>
    if k % 4 < 2 then none
    else some (fun shader count result =>
      writeSpan (fun p => SkPM4f.mk (demoPixel k p.r) (demoPixel k p.g) (demoPixel k p.b) p.a)
        shader count result)
  newComposed := demoNewComposed
  asFragmentProcessor := fun k context =>
    if k % 8 < 4 then some (GrFragmentProcessor.stage (1000 * context + k)) else none

/-- A buffer that holds a queue of records; a record is a filter, or `none` for a record
whose identifier no factory is registered for. -/
def queueBuffer : SkBuffer (List (Option SkColorFilter)) where
  writeFlattenable := fun b f => b ++ [some f]
  readColorFilter := fun b =>
    match b with
    | [] => (none, [])
    | r :: rest => (r, rest)

/-- A two-leaf chain of the demo environment: double, then add one. -/
def demoPair : SkColorFilter :=
  SkColorFilter.compose (SkColorFilter.leaf 0) (SkColorFilter.leaf 1) 2

/-- A four-leaf chain of the demo environment, the largest that can be built. -/
def demoChain4 : SkColorFilter :=
  SkColorFilter.compose demoPair demoPair 4

/-- The demo environment with every `filterSpan4f` override removed: its leaves with bit 1
set advertise float support and run the base-class body all the same. -/
def noOverrideEnv : Env where
  kSupports4f_Flag := demoEnv.kSupports4f_Flag
  getFlags := demoEnv.getFlags
  filterSpan := demoEnv.filterSpan
  filterSpan4f := fun _ => none
  newComposed := demoEnv.newComposed
  asFragmentProcessor := demoEnv.asFragmentProcessor

/-! ## The filter graph as a whole -/

namespace SkColorFilter

/-- Number of leaf filters in the tree of a filter; a fused filter is a leaf. -/
def leafCount : SkColorFilter → Int
  | leaf _ => 1
  | compose fOuter fInner _ => leafCount fOuter + leafCount fInner

/-- Every filter object of a tree, the root first: the node itself, then the objects
below `fOuter`, then those below `fInner`. -/
def nodes : SkColorFilter → List SkColorFilter
  | leaf k => [leaf k]
  | compose fOuter fInner c => compose fOuter fInner c :: (nodes fOuter ++ nodes fInner)

/-- The filters a program can obtain: leaf objects, and whatever `CreateComposeFilter`
returns for two filters obtained before. -/
inductive Constructible (V : Env) : SkColorFilter → Prop where
  | ofLeaf (k : Nat) : Constructible V (leaf k)
  | ofCreate (o i f : SkColorFilter) (ho : Constructible V o) (hi : Constructible V i)
      (h : CreateComposeFilter V (some o) (some i) = Except.ok (some f)) : Constructible V f

/-- The two assertions of lines 78-79 hold at this node and at every compose node
beneath it. -/
def composeAssertsHold (V : Env) : SkColorFilter → Bool
  | leaf _ => true
  | compose fOuter fInner _ =>
      supports4f V fInner && supports4f V fOuter &&
      composeAssertsHold V fInner && composeAssertsHold V fOuter

end SkColorFilter

/-! ## The blend benchmark (bench/Xfer4fBench.cpp) -/

/-- Xfer4fBench.cpp line 13: `(1 << 31)`, as a 32-bit pattern. -/
def USE_AA : Nat := 1 <<< 31

/-- Xfer4fBench.cpp line 15. -/
def INNER_LOOPS : Int := 1000

/-- The operator `~` on a 32-bit word. -/
def complement32 (x : Nat) : Nat := (2 ^ 32 - 1) ^^^ (x % 2 ^ 32)

/-- `SkXfermode::PM4fState`, built on line 52 from a pointer and a flag word. -/
structure PM4fState where
  fXfer : Option Nat
  fFlags : Nat
deriving DecidableEq, Repr

/-- `SkXfermode::PM4fProc1`: state, destination span, one source colour, count, coverage
(`none` is a null pointer); returns the destination span after the call. -/
abbrev PM4fProc1 :=
  PM4fState → List SkPMColor → SkPM4f → Int → Option (List Nat) → List SkPMColor

/-- `SkXfermode::PM4fProcN`: as `PM4fProc1` with a span of source colours. -/
abbrev PM4fProcN :=
  PM4fState → List SkPMColor → List SkPM4f → Int → Option (List Nat) → List SkPMColor

/-- The two lookups of SkXfermode.h that the benchmark calls, by mode and flag word.
They are not among the sources and enter as arguments. -/
structure SkXfermode where
  GetPM4fProc1 : Nat → Nat → PM4fProc1
  GetPM4fProcN : Nat → Nat → PM4fProcN

/-- The fields of the benchmark object, lines 64-76, without the name string. -/
structure Xfer4fBench where
  fProc1 : PM4fProc1
  fProcN : PM4fProcN
  fAA : Option (List Nat)
  fDoN : Bool
  fFlags : Nat
  fSrc : List SkPM4f
  fDst : List SkPMColor
  fAAStorage : List Nat

namespace Xfer4fBench

/-- The enum constant of lines 71-73. -/
def N : Nat := 1000

/-- The value computed on line 36 for index `i`, before it is stored. -/
def coverage (i : Nat) : Nat := i * 255 / (N - 1)

/-- The constructor, lines 20-44.  `flags` is a `uint32_t`; a store to `fAAStorage[i]`
keeps the low 8 bits; `1.0f` has the bit pattern `0x3F800000`.  The name string of lines
26-31 is left out. -/
def ctor (X : SkXfermode) (mode : Nat) (doN : Bool) (flags : Nat) : Xfer4fBench :=
  let flags32 := flags % 2 ^ 32
  let fFlags := flags32 &&& complement32 USE_AA
  let fAAStorage := (List.range N).map (fun i => coverage i % 256)
  Xfer4fBench.mk
    (X.GetPM4fProc1 mode fFlags)
    (X.GetPM4fProcN mode fFlags)
    (if flags32 &&& USE_AA != 0 then some fAAStorage else none)
    doN
    fFlags
    ((List.range N).map (fun _ => SkPM4f.mk 0x3F800000 0x3F800000 0x3F800000 0x3F800000))
    ((List.range N).map (fun _ => 0))
    fAAStorage

/-- The state built on line 52: `{ nullptr, fFlags }`. -/
def state (b : Xfer4fBench) : PM4fState := PM4fState.mk none b.fFlags

/-- One pass of the loop body, lines 55-59, on the destination span. -/
def drawOnce (b : Xfer4fBench) (dst : List SkPMColor) : List SkPMColor :=
  if b.fDoN then
    b.fProcN (state b) dst b.fSrc N b.fAA
  else
    b.fProc1 (state b) dst (b.fSrc.headD (SkPM4f.mk 0 0 0 0)) N b.fAA

/-- `onDraw(loops, canvas)`, lines 51-61: the destination span after `loops * INNER_LOOPS`
passes. -/
def onDraw (b : Xfer4fBench) (loops : Int) : List SkPMColor :=
  Nat.iterate (drawOnce b) (loops * INNER_LOOPS).toNat b.fDst

end Xfer4fBench

/-- A lookup for concrete runs of the benchmark: the procedures add the mode, the lookup
flags and the flags of the state to the first `count` destination entries. -/
def demoXfermode : SkXfermode where
  GetPM4fProc1 := fun mode flags st dst _ count _ =>
    writeSpan (fun d => (d + mode + flags + st.fFlags) % 2 ^ 32) dst count dst
  GetPM4fProcN := fun mode flags st dst _ count _ =>
    writeSpan (fun d => (d + 2 * mode + flags + st.fFlags) % 2 ^ 32) dst count dst

/-! ## Theorems -/

open SkColorFilter

/-- C1: a compose node filters a span by running inner on the input and then outer in
place on what inner wrote.  The same holds for the float path once the two assertions of
filterSpan4f pass.  The order is not the reverse one: there are filters for which
outer-first gives another result. -/
theorem compose_filterSpan_inner_then_outer :
    (∀ (V : Env) (outer inner : SkColorFilter) (c : Int) (shader : List SkPMColor)
        (count : Int) (result : List SkPMColor),
      filterSpan V (compose outer inner c) shader count result
        = filterSpan V outer (filterSpan V inner shader count result) count
            (filterSpan V inner shader count result)) ∧
    (∀ (V : Env) (outer inner : SkColorFilter) (c : Int) (shader : List SkPM4f)
        (count : Int) (result : List SkPM4f),
      supports4f V inner = true → supports4f V outer = true →
      filterSpan4f V (compose outer inner c) shader count result
        = match filterSpan4f V inner shader count result with
          | Except.error e => Except.error e
          | Except.ok r => filterSpan4f V outer r count r) ∧
    (∃ (V : Env) (outer inner : SkColorFilter) (c : Int) (shader : List SkPMColor)
        (count : Int) (result : List SkPMColor),
      filterSpan V (compose outer inner c) shader count result
        ≠ filterSpan V inner (filterSpan V outer shader count result) count
            (filterSpan V outer shader count result)) := by
  refine ⟨?_, ?_, ?_⟩
  · intro V outer inner c shader count result
    rfl
  · intro V outer inner c shader count result hi ho
    simp [filterSpan4f, SkASSERT, hi, ho]
  · exact ⟨demoEnv, leaf 0, leaf 1, 2, [3], 1, [0], by decide⟩

/-- Witness for C1 on the float path: two float-capable demo leaves, doubling first and
adding one second. -/
theorem compose_filterSpan_inner_then_outer_witness :
    supports4f demoEnv (leaf 3) = true ∧ supports4f demoEnv (leaf 2) = true ∧
    filterSpan4f demoEnv (compose (leaf 2) (leaf 3) 2) [SkPM4f.mk 3 4 5 6] 1 [SkPM4f.mk 0 0 0 0]
      = Except.ok [SkPM4f.mk 7 9 11 6] :=
  ⟨by decide, by decide,
    (compose_filterSpan_inner_then_outer.2.1 demoEnv (leaf 2) (leaf 3) 2 [SkPM4f.mk 3 4 5 6] 1
      [SkPM4f.mk 0 0 0 0] (by decide) (by decide)).trans (by decide)⟩

/-! ### Helper lemmas on the constructor and on CreateComposeFilter -/

theorem ctor_in_range (o i : SkColorFilter) (c : Int) (h2 : 2 ≤ c) (h4 : c ≤ 4) :
    SkComposeColorFilter.ctor o i c = Except.ok (compose o i c) := by
  simp [SkComposeColorFilter.ctor, SkASSERT, SK_MAX_COMPOSE_COLORFILTER_COUNT, h2, h4]

theorem ctor_never_null (o i : SkColorFilter) (c : Int) :
    (match SkComposeColorFilter.ctor o i c with
      | Except.error e => (Except.error e : Except String (Option SkColorFilter))
      | Except.ok node => Except.ok (some node)) ≠ Except.ok none := by
  unfold SkComposeColorFilter.ctor SkASSERT
  by_cases h2 : c ≥ 2 <;> by_cases h4 : c ≤ SK_MAX_COMPOSE_COLORFILTER_COUNT <;> simp [h2, h4]

theorem one_le_count_of_wellFormed (f : SkColorFilter) (h : wellFormed f = true) :
    1 ≤ privateComposedFilterCount f := by
  cases f with
  | leaf k => simp [privateComposedFilterCount]
  | compose o i c =>
    simp only [wellFormed, Bool.and_eq_true, decide_eq_true_eq] at h
    simp only [privateComposedFilterCount]
    omega

theorem count_le_of_wellFormed (f : SkColorFilter) (h : wellFormed f = true) :
    privateComposedFilterCount f ≤ 4 := by
  cases f with
  | leaf k => simp [privateComposedFilterCount]
  | compose o i c =>
    simp only [wellFormed, Bool.and_eq_true, decide_eq_true_eq,
      SK_MAX_COMPOSE_COLORFILTER_COUNT] at h
    simp only [privateComposedFilterCount]
    omega

theorem createComposeFilter_generic (V : Env) (o i : SkColorFilter)
    (hook : newComposed V o i = none)
    (ho : 1 ≤ privateComposedFilterCount o) (hi : 1 ≤ privateComposedFilterCount i)
    (hle : privateComposedFilterCount i + privateComposedFilterCount o ≤ 4) :
    CreateComposeFilter V (some o) (some i)
      = Except.ok (some (compose o i
          (privateComposedFilterCount i + privateComposedFilterCount o))) := by
  have h2 : 2 ≤ privateComposedFilterCount i + privateComposedFilterCount o := by omega
  have hgt : ¬ (privateComposedFilterCount i + privateComposedFilterCount o > 4) := by omega
  simp only [CreateComposeFilter, hook, SK_MAX_COMPOSE_COLORFILTER_COUNT, hgt, if_false,
    ctor_in_range o i _ h2 hle]

theorem createComposeFilter_exceeds (V : Env) (o i : SkColorFilter)
    (hook : newComposed V o i = none)
    (hgt : privateComposedFilterCount i + privateComposedFilterCount o > 4) :
    CreateComposeFilter V (some o) (some i) = Except.ok none := by
  simp only [CreateComposeFilter, hook, SK_MAX_COMPOSE_COLORFILTER_COUNT, hgt, if_true]

theorem createComposeFilter_absent_outer (V : Env) (f : Option SkColorFilter) :
    CreateComposeFilter V none f = Except.ok f := rfl

theorem createComposeFilter_absent_inner (V : Env) (f : Option SkColorFilter) :
    CreateComposeFilter V f none = Except.ok f := by
  cases f <;> rfl

/-! ### CreateComposeFilter -/

/-- C2: identity laws.  With an absent outer the result is inner itself, with an absent
inner it is outer itself, for every environment (so neither the fusion hook nor the count
bound plays a part); with both absent the result is no filter. -/
theorem createComposeFilter_identity (V : Env) (f : Option SkColorFilter) :
    CreateComposeFilter V none f = Except.ok f ∧
    CreateComposeFilter V f none = Except.ok f ∧
    CreateComposeFilter V none none = Except.ok none := by
  exact ⟨createComposeFilter_absent_outer V f, createComposeFilter_absent_inner V f, rfl⟩

/-- C3: CreateComposeFilter returns no filter exactly when both arguments are absent, or
both are present, the hook of outer declines and the two counts add up to more than 4.
With both present, the hook declining and the sum at most 4, it returns the new compose
node holding outer, inner and the sum. -/
theorem createComposeFilter_null_iff (V : Env) (outer inner : Option SkColorFilter) :
    (CreateComposeFilter V outer inner = Except.ok none ↔
      (outer = none ∧ inner = none) ∨
      (∃ o i, outer = some o ∧ inner = some i ∧ newComposed V o i = none ∧
        privateComposedFilterCount i + privateComposedFilterCount o > 4)) ∧
    (∀ o i, outer = some o → inner = some i → newComposed V o i = none →
      wellFormed o = true → wellFormed i = true →
      ¬ (privateComposedFilterCount i + privateComposedFilterCount o > 4) →
      CreateComposeFilter V outer inner
        = Except.ok (some (compose o i
            (privateComposedFilterCount i + privateComposedFilterCount o)))) := by
  constructor
  · cases outer with
    | none =>
      cases inner with
      | none => simp [CreateComposeFilter]
      | some i => simp [CreateComposeFilter]
    | some o =>
      cases inner with
      | none => simp [CreateComposeFilter]
      | some i =>
        cases hook : newComposed V o i with
        | some g => simp [CreateComposeFilter, hook]
        | none =>
          by_cases hgt : privateComposedFilterCount i + privateComposedFilterCount o > 4
          · simp [createComposeFilter_exceeds V o i hook hgt, hook, hgt]
          · have hne := ctor_never_null o i
              (privateComposedFilterCount i + privateComposedFilterCount o)
            simp only [CreateComposeFilter, hook, SK_MAX_COMPOSE_COLORFILTER_COUNT, hgt,
              if_false]
            constructor
            · intro h
              exact absurd h hne
            · rintro (⟨h, _⟩ | ⟨o', i', ho', hi', _, hgt'⟩)
              · cases h
              · cases ho'
                cases hi'
                exact absurd hgt' hgt
  · intro o i ho hi hook wo wi hgt
    subst ho
    subst hi
    exact createComposeFilter_generic V o i hook (one_le_count_of_wellFormed o wo)
      (one_le_count_of_wellFormed i wi) (by omega)

/-- Witness for C3: a two-leaf chain composed with a further leaf gives the three-leaf
compose node. -/
theorem createComposeFilter_null_iff_witness :
    newComposed demoEnv demoPair (leaf 2) = none ∧
    wellFormed demoPair = true ∧ wellFormed (leaf 2) = true ∧
    ¬ (privateComposedFilterCount (leaf 2) + privateComposedFilterCount demoPair > 4) ∧
    CreateComposeFilter demoEnv (some demoPair) (some (leaf 2))
      = Except.ok (some (compose demoPair (leaf 2) 3)) :=
  ⟨by decide, by decide, by decide, by decide,
    (createComposeFilter_null_iff demoEnv (some demoPair) (some (leaf 2))).2 demoPair (leaf 2)
      rfl rfl (by decide) (by decide) (by decide) (by decide)⟩

/-- C4: when the hook of outer produces a filter g for inner, CreateComposeFilter returns
exactly g.  Nothing is assumed about the counts, so the bound of 4 is not consulted. -/
theorem createComposeFilter_fused (V : Env) (outer inner g : SkColorFilter)
    (hook : newComposed V outer inner = some g) :
    CreateComposeFilter V (some outer) (some inner) = Except.ok (some g) := by
  simp only [CreateComposeFilter, hook]

/-- Witness for C4: a constant leaf in front of a four-leaf chain.  The counts add up to
5, and the fused leaf is returned all the same. -/
theorem createComposeFilter_fused_witness :
    newComposed demoEnv (leaf 200) demoChain4 = some (leaf 200) ∧
    privateComposedFilterCount demoChain4 + privateComposedFilterCount (leaf 200) = 5 ∧
    CreateComposeFilter demoEnv (some (leaf 200)) (some demoChain4)
      = Except.ok (some (leaf 200)) :=
  ⟨by decide, by decide,
    createComposeFilter_fused demoEnv (leaf 200) demoChain4 (leaf 200) (by decide)⟩

/-- C5: the flag word of a compose node is the bitwise AND of the flag words of its
children; bit by bit, the node claims a flag exactly when both children claim it.  In the
demo environment, where leaf k carries the flag word k, this is checked for all sixteen
pairs of two-bit flag words. -/
theorem compose_getFlags_and (V : Env) (outer inner : SkColorFilter) (c : Int) :
    getFlags V (compose outer inner c) = getFlags V outer &&& getFlags V inner ∧
    (∀ n : Nat, (getFlags V (compose outer inner c)).testBit n = true ↔
      ((getFlags V outer).testBit n = true ∧ (getFlags V inner).testBit n = true)) ∧
    (∀ a : Fin 4, ∀ b : Fin 4,
      getFlags demoEnv (compose (leaf a.val) (leaf b.val) 2) = a.val &&& b.val) := by
  refine ⟨rfl, ?_, by decide⟩
  intro n
  simp [getFlags, Nat.testBit_and]

/-! ### Composed counts and the bound -/

/-- C6, as stated, fails: two adding leaves of the demo environment fuse into one adding
leaf, whose composed count is 1 while the counts of the two arguments add up to 2. -/
theorem createComposeFilter_leaves_count_counterexample :
    CreateComposeFilter demoEnv (some (leaf 101)) (some (leaf 102))
      = Except.ok (some (leaf 103)) ∧
    privateComposedFilterCount (leaf 103) = 1 ∧
    privateComposedFilterCount (leaf 101) + privateComposedFilterCount (leaf 102) = 2 ∧
    ¬ ∃ f, CreateComposeFilter demoEnv (some (leaf 101)) (some (leaf 102))
          = Except.ok (some f) ∧
        privateComposedFilterCount f
          = privateComposedFilterCount (leaf 101) + privateComposedFilterCount (leaf 102) := by
  have h : CreateComposeFilter demoEnv (some (leaf 101)) (some (leaf 102))
      = Except.ok (some (leaf 103)) := by decide
  refine ⟨h, by decide, by decide, ?_⟩
  rintro ⟨f, hf, hcount⟩
  rw [h] at hf
  injection hf with hf
  injection hf with hf
  subst hf
  revert hcount
  decide

/-- C6, amended: for two leaf filters A and B such that the hook of A declines B,
CreateComposeFilter returns the compose node of A and B, whose composed count is the sum
of the counts of A and B, that is 2. -/
theorem createComposeFilter_leaves_count (V : Env) (a b : Nat)
    (hook : newComposed V (leaf a) (leaf b) = none) :
    ∃ f, CreateComposeFilter V (some (leaf a)) (some (leaf b)) = Except.ok (some f) ∧
      f = compose (leaf a) (leaf b) 2 ∧
      privateComposedFilterCount f
        = privateComposedFilterCount (leaf a) + privateComposedFilterCount (leaf b) := by
  refine ⟨compose (leaf a) (leaf b) 2, ?_, rfl, rfl⟩
  exact createComposeFilter_generic V (leaf a) (leaf b) hook
    (by simp [privateComposedFilterCount]) (by simp [privateComposedFilterCount])
    (by simp [privateComposedFilterCount])

/-- Witness for the amended C6: the doubling leaf 1 under the adding leaf 0. -/
theorem createComposeFilter_leaves_count_witness :
    newComposed demoEnv (leaf 0) (leaf 1) = none ∧
    ∃ f, CreateComposeFilter demoEnv (some (leaf 0)) (some (leaf 1)) = Except.ok (some f) ∧
      f = compose (leaf 0) (leaf 1) 2 ∧
      privateComposedFilterCount f
        = privateComposedFilterCount (leaf 0) + privateComposedFilterCount (leaf 1) :=
  ⟨by decide, createComposeFilter_leaves_count demoEnv 0 1 (by decide)⟩

/-- C7, as stated, fails: a constant leaf of the demo environment placed as outer in front
of a four-leaf chain fuses with it, so a filter is returned. -/
theorem createComposeFilter_full_chain_counterexample :
    privateComposedFilterCount demoChain4 = 4 ∧
    CreateComposeFilter demoEnv (some (leaf 200)) (some demoChain4)
      = Except.ok (some (leaf 200)) ∧
    CreateComposeFilter demoEnv (some (leaf 200)) (some demoChain4) ≠ Except.ok none := by
  decide

/-- C7, amended: for every chain C of composed count 4 and every leaf L,
CreateComposeFilter(C, L) returns no filter, and CreateComposeFilter(L, C) returns no
filter whenever the hook of L declines C. -/
theorem createComposeFilter_full_chain (V : Env) (C : SkColorFilter) (l : Nat)
    (hC : privateComposedFilterCount C = 4) :
    CreateComposeFilter V (some C) (some (leaf l)) = Except.ok none ∧
    (newComposed V (leaf l) C = none →
      CreateComposeFilter V (some (leaf l)) (some C) = Except.ok none) := by
  constructor
  · cases C with
    | leaf k => simp [privateComposedFilterCount] at hC
    | compose o i c =>
      apply createComposeFilter_exceeds V (compose o i c) (leaf l) rfl
      rw [hC]
      simp [privateComposedFilterCount]
  · intro hook
    apply createComposeFilter_exceeds V (leaf l) C hook
    rw [hC]
    simp [privateComposedFilterCount]

/-- Witness for the amended C7: the four-leaf demo chain and the adding leaf 2, in both
orders. -/
theorem createComposeFilter_full_chain_witness :
    privateComposedFilterCount demoChain4 = 4 ∧
    newComposed demoEnv (leaf 2) demoChain4 = none ∧
    CreateComposeFilter demoEnv (some demoChain4) (some (leaf 2)) = Except.ok none ∧
    CreateComposeFilter demoEnv (some (leaf 2)) (some demoChain4) = Except.ok none :=
  ⟨by decide, by decide,
    (createComposeFilter_full_chain demoEnv demoChain4 2 (by decide)).1,
    (createComposeFilter_full_chain demoEnv demoChain4 2 (by decide)).2 (by decide)⟩

/-- C8: the bound is inclusive.  Two compose nodes P and Q of composed count 2 each
compose into the compose node with outer P, inner Q and composed count 4. -/
theorem createComposeFilter_two_pairs (V : Env) (po pi qo qi : SkColorFilter) :
    CreateComposeFilter V (some (compose po pi 2)) (some (compose qo qi 2))
      = Except.ok (some (compose (compose po pi 2) (compose qo qi 2) 4)) ∧
    privateComposedFilterCount (compose (compose po pi 2) (compose qo qi 2) 4) = 4 ∧
    newComposed V (compose po pi 2) (compose qo qi 2) = none := by
  refine ⟨?_, rfl, rfl⟩
  exact createComposeFilter_generic V (compose po pi 2) (compose qo qi 2) rfl
    (by simp [privateComposedFilterCount]) (by simp [privateComposedFilterCount])
    (by simp [privateComposedFilterCount])

/-! ### Serialization -/

theorem queueBuffer_isStream : queueBuffer.IsStream := by
  intro b b' f g h
  cases b with
  | nil =>
    simp only [queueBuffer] at h
    injection h with h1 _
    cases h1
  | cons r rest =>
    simp only [queueBuffer] at h
    injection h with h1 h2
    subst h1
    subst h2
    rfl

theorem queueBuffer_readsBack (f : SkColorFilter) : queueBuffer.ReadsBack [] f := rfl

/-- C9: round trip.  Take a compose node as CreateComposeFilter builds it (the hook of
outer declines inner, and the node is well formed, so its count is the sum of the counts
of its children and at most 4), a stream buffer, and suppose that outer and inner each
read back as themselves when written alone.  Then flatten followed by CreateProc returns
the compose node with the same outer, the same inner and the same count.  It therefore
filters every span as the original does, and it is not the node with the children
swapped.  Nothing is assumed about the buffer that flatten writes. -/
theorem compose_flatten_CreateProc_roundtrip {β : Type} (V : Env) (B : SkBuffer β)
    (outer inner : SkColorFilter) (c : Int) (b0 : β)
    (hook : newComposed V outer inner = none)
    (hwf : wellFormed (compose outer inner c) = true)
    (hStream : B.IsStream)
    (hOuter : B.ReadsBack b0 outer)
    (hInner : B.ReadsBack b0 inner) :
    SkComposeColorFilter.CreateProc V B (SkComposeColorFilter.flatten B outer inner b0)
      = (Except.ok (some (compose outer inner c)), b0) ∧
    (∀ r, (SkComposeColorFilter.CreateProc V B
          (SkComposeColorFilter.flatten B outer inner b0)).1 = Except.ok (some r) →
      r = compose outer inner c ∧
      privateComposedFilterCount r = c ∧
      ∀ shader count result,
        filterSpan V r shader count result
          = filterSpan V (compose outer inner c) shader count result) ∧
    (outer ≠ inner →
      (SkComposeColorFilter.CreateProc V B
        (SkComposeColorFilter.flatten B outer inner b0)).1
        ≠ Except.ok (some (compose inner outer c))) := by
  have hparts := hwf
  simp only [wellFormed, Bool.and_eq_true, decide_eq_true_eq,
    SK_MAX_COMPOSE_COLORFILTER_COUNT] at hparts
  obtain ⟨⟨⟨⟨wo, wi⟩, hc⟩, _⟩, h4⟩ := hparts
  have hcreate : CreateComposeFilter V (some outer) (some inner)
      = Except.ok (some (compose outer inner c)) := by
    rw [hc]
    exact createComposeFilter_generic V outer inner hook (one_le_count_of_wellFormed outer wo)
      (one_le_count_of_wellFormed inner wi) (by omega)
  have hfirst : B.readColorFilter (SkComposeColorFilter.flatten B outer inner b0)
      = (some outer, B.writeFlattenable b0 inner) :=
    hStream (B.writeFlattenable b0 outer) b0 inner outer hOuter
  have hsecond : B.readColorFilter (B.writeFlattenable b0 inner) = (some inner, b0) := hInner
  have hproc : SkComposeColorFilter.CreateProc V B
      (SkComposeColorFilter.flatten B outer inner b0)
      = (Except.ok (some (compose outer inner c)), b0) := by
    simp only [SkComposeColorFilter.CreateProc, hfirst, hsecond, hcreate]
  refine ⟨hproc, ?_, ?_⟩
  · intro r hr
    rw [hproc] at hr
    injection hr with hr
    injection hr with hr
    subst hr
    exact ⟨rfl, rfl, fun _ _ _ => rfl⟩
  · intro hne hswap
    rw [hproc] at hswap
    injection hswap with hswap
    injection hswap with hswap
    injection hswap with h1 _ _
    exact hne h1

/-- Witness for C9: the three-leaf chain with outer the two-leaf demo chain and inner
leaf 2, written to an empty queue and read back. -/
theorem compose_flatten_CreateProc_roundtrip_witness :
    newComposed demoEnv demoPair (leaf 2) = none ∧
    wellFormed (compose demoPair (leaf 2) 3) = true ∧
    queueBuffer.readColorFilter (queueBuffer.writeFlattenable [] demoPair)
      = (some demoPair, []) ∧
    queueBuffer.readColorFilter (queueBuffer.writeFlattenable [] (leaf 2))
      = (some (leaf 2), []) ∧
    SkComposeColorFilter.flatten queueBuffer demoPair (leaf 2) []
      = [some demoPair, some (leaf 2)] ∧
    SkComposeColorFilter.CreateProc demoEnv queueBuffer
        (SkComposeColorFilter.flatten queueBuffer demoPair (leaf 2) [])
      = (Except.ok (some (compose demoPair (leaf 2) 3)), []) :=
  ⟨by decide, by decide, by decide, by decide, by decide,
    (compose_flatten_CreateProc_roundtrip demoEnv queueBuffer demoPair (leaf 2) 3 []
      (by decide) (by decide) queueBuffer_isStream (queueBuffer_readsBack demoPair)
      (queueBuffer_readsBack (leaf 2))).1⟩

/-- C10, as stated, fails: in a buffer whose first record has an unknown identifier and
whose second record is leaf 7, the read of outer yields no filter, the read of inner
yields leaf 7, and CreateProc returns leaf 7. -/
theorem CreateProc_failed_read_counterexample :
    (queueBuffer.readColorFilter [none, some (leaf 7)]).1 = none ∧
    (queueBuffer.readColorFilter (queueBuffer.readColorFilter [none, some (leaf 7)]).2).1
      = some (leaf 7) ∧
    (SkComposeColorFilter.CreateProc demoEnv queueBuffer [none, some (leaf 7)]).1
      = Except.ok (some (leaf 7)) ∧
    (SkComposeColorFilter.CreateProc demoEnv queueBuffer [none, some (leaf 7)]).1
      ≠ Except.ok none := by
  decide

/-- C10, amended: when the read of one child yields no filter, CreateProc returns exactly
what the read of the other child yielded: no filter when both reads fail, and the child
that did read when only one fails. -/
theorem CreateProc_failed_read {β : Type} (V : Env) (B : SkBuffer β) (buffer : β) :
    ((B.readColorFilter buffer).1 = none →
      (SkComposeColorFilter.CreateProc V B buffer).1
        = Except.ok (B.readColorFilter (B.readColorFilter buffer).2).1) ∧
    ((B.readColorFilter (B.readColorFilter buffer).2).1 = none →
      (SkComposeColorFilter.CreateProc V B buffer).1
        = Except.ok (B.readColorFilter buffer).1) ∧
    ((B.readColorFilter buffer).1 = none →
      (B.readColorFilter (B.readColorFilter buffer).2).1 = none →
      (SkComposeColorFilter.CreateProc V B buffer).1 = Except.ok none) := by
  refine ⟨?_, ?_, ?_⟩
  · intro h
    simp only [SkComposeColorFilter.CreateProc, h]
    exact createComposeFilter_absent_outer V _
  · intro h
    simp only [SkComposeColorFilter.CreateProc, h]
    exact createComposeFilter_absent_inner V _
  · intro h1 h2
    simp only [SkComposeColorFilter.CreateProc, h1, h2]
    rfl

/-- Witness for the amended C10: a buffer with two unknown records gives no filter, and a
buffer whose second record is unknown gives back the first. -/
theorem CreateProc_failed_read_witness :
    (queueBuffer.readColorFilter [none, none]).1 = none ∧
    (queueBuffer.readColorFilter (queueBuffer.readColorFilter [none, none]).2).1 = none ∧
    (SkComposeColorFilter.CreateProc demoEnv queueBuffer [none, none]).1 = Except.ok none ∧
    (SkComposeColorFilter.CreateProc demoEnv queueBuffer [some (leaf 7), none]).1
      = Except.ok (some (leaf 7)) :=
  ⟨by decide, by decide,
    (CreateProc_failed_read demoEnv queueBuffer [none, none]).2.2 (by decide) (by decide),
    (CreateProc_failed_read demoEnv queueBuffer [some (leaf 7), none]).2.1 (by decide)⟩

/-! ### GPU bridging -/

/-- C11: a compose node offers no fragment stage exactly when one of its two children
offers none; when both children offer a stage, it offers the series of exactly these two
stages, the stage of inner first and the stage of outer second. -/
theorem compose_asFragmentProcessor (V : Env) (context : GrContext)
    (outer inner : SkColorFilter) (c : Int) :
    (asFragmentProcessor V context (compose outer inner c) = none ↔
      (asFragmentProcessor V context inner = none ∨
        asFragmentProcessor V context outer = none)) ∧
    (∀ innerFP outerFP, asFragmentProcessor V context inner = some innerFP →
      asFragmentProcessor V context outer = some outerFP →
      asFragmentProcessor V context (compose outer inner c)
        = some (GrFragmentProcessor.series [innerFP, outerFP])) := by
  constructor
  · simp only [asFragmentProcessor]
    cases hi : asFragmentProcessor V context inner with
    | none => simp
    | some i =>
      cases ho : asFragmentProcessor V context outer with
      | none => simp
      | some o => simp [GrFragmentProcessor.RunInSeries]
  · intro innerFP outerFP hi ho
    simp only [asFragmentProcessor, hi, ho]
    rfl

/-- Witness for C11: in the demo environment leaf 1 and leaf 0 both offer a stage, and
the node with outer leaf 0 and inner leaf 1 offers the stage of leaf 1 followed by the
stage of leaf 0. -/
theorem compose_asFragmentProcessor_witness :
    asFragmentProcessor demoEnv 7 (leaf 1) = some (GrFragmentProcessor.stage 7001) ∧
    asFragmentProcessor demoEnv 7 (leaf 0) = some (GrFragmentProcessor.stage 7000) ∧
    asFragmentProcessor demoEnv 7 (compose (leaf 0) (leaf 1) 2)
      = some (GrFragmentProcessor.series
          [GrFragmentProcessor.stage 7001, GrFragmentProcessor.stage 7000]) :=
  ⟨rfl, rfl,
    (compose_asFragmentProcessor demoEnv 7 (leaf 0) (leaf 1) 2).2
      (GrFragmentProcessor.stage 7001) (GrFragmentProcessor.stage 7000) rfl rfl⟩

/-! ### The blend benchmark -/

theorem complement32_USE_AA : complement32 USE_AA = 2 ^ 31 - 1 := by
  decide

theorem ctor_fFlags (X : SkXfermode) (mode : Nat) (doN : Bool) (f : Nat) :
    (Xfer4fBench.ctor X mode doN f).fFlags = f % 2 ^ 31 := by
  simp only [Xfer4fBench.ctor, complement32_USE_AA, Nat.and_pow_two_sub_one_eq_mod]
  exact Nat.mod_mod_of_dvd f (by norm_num)

/-- C12: for a 32-bit flag word f the constructor stores f & ~USE_AA in fFlags, looks
both procedures up under that word, and onDraw puts it into the state.  In that word bit
31 is clear and bits 0 to 30 are those of f, so f and f | USE_AA give the same word and
the same lookups, and every flag that lies in bits 0 to 30 passes through unchanged. -/
theorem Xfer4fBench_lookup_flags (X : SkXfermode) (mode : Nat) (doN : Bool) (f : Nat)
    (hf : f < 2 ^ 32) :
    (Xfer4fBench.ctor X mode doN f).fFlags = f &&& complement32 USE_AA ∧
    (Xfer4fBench.ctor X mode doN f).fProc1
      = X.GetPM4fProc1 mode (f &&& complement32 USE_AA) ∧
    (Xfer4fBench.ctor X mode doN f).fProcN
      = X.GetPM4fProcN mode (f &&& complement32 USE_AA) ∧
    Xfer4fBench.state (Xfer4fBench.ctor X mode doN f)
      = PM4fState.mk none (f &&& complement32 USE_AA) ∧
    USE_AA = 2 ^ 31 ∧
    (f &&& complement32 USE_AA).testBit 31 = false ∧
    (∀ i, i < 31 → (f &&& complement32 USE_AA).testBit i = f.testBit i) ∧
    (f ||| USE_AA) &&& complement32 USE_AA = f &&& complement32 USE_AA ∧
    (Xfer4fBench.ctor X mode doN (f ||| USE_AA)).fFlags
      = (Xfer4fBench.ctor X mode doN f).fFlags ∧
    (Xfer4fBench.ctor X mode doN (f ||| USE_AA)).fProc1
      = (Xfer4fBench.ctor X mode doN f).fProc1 ∧
    (Xfer4fBench.ctor X mode doN (f ||| USE_AA)).fProcN
      = (Xfer4fBench.ctor X mode doN f).fProcN ∧
    (∀ m, m < 2 ^ 31 → (f &&& complement32 USE_AA) &&& m = f &&& m) := by
  have hmod : f % 2 ^ 32 = f := Nat.mod_eq_of_lt hf
  have hand : f &&& complement32 USE_AA = f % 2 ^ 31 := by
    rw [complement32_USE_AA, Nat.and_pow_two_sub_one_eq_mod]
  have hor : (f ||| USE_AA) % 2 ^ 31 = f % 2 ^ 31 := by
    apply Nat.eq_of_testBit_eq
    intro i
    simp only [Nat.testBit_mod_two_pow, Nat.testBit_or, USE_AA, Nat.one_shiftLeft,
      Nat.testBit_two_pow]
    by_cases hi : i < 31
    · have : ¬ (31 = i) := by omega
      simp [hi, this]
    · simp [hi]
  have hflags : (Xfer4fBench.ctor X mode doN (f ||| USE_AA)).fFlags
      = (Xfer4fBench.ctor X mode doN f).fFlags := by
    rw [ctor_fFlags, ctor_fFlags, hor]
  have hfl : (Xfer4fBench.ctor X mode doN f).fFlags = f &&& complement32 USE_AA := by
    rw [ctor_fFlags, hand]
  refine ⟨hfl, ?_, ?_, ?_, by decide, ?_, ?_, ?_, hflags, ?_, ?_, ?_⟩
  · simp only [Xfer4fBench.ctor, hmod]
  · simp only [Xfer4fBench.ctor, hmod]
  · simp only [Xfer4fBench.state, hfl]
  · rw [hand, Nat.testBit_mod_two_pow]
    simp
  · intro i hi
    rw [hand, Nat.testBit_mod_two_pow]
    simp [hi]
  · rw [complement32_USE_AA, Nat.and_pow_two_sub_one_eq_mod, Nat.and_pow_two_sub_one_eq_mod, hor]
  · have h1 : (Xfer4fBench.ctor X mode doN (f ||| USE_AA)).fProc1
        = X.GetPM4fProc1 mode (Xfer4fBench.ctor X mode doN (f ||| USE_AA)).fFlags := rfl
    have h2 : (Xfer4fBench.ctor X mode doN f).fProc1
        = X.GetPM4fProc1 mode (Xfer4fBench.ctor X mode doN f).fFlags := rfl
    rw [h1, h2, hflags]
  · have h1 : (Xfer4fBench.ctor X mode doN (f ||| USE_AA)).fProcN
        = X.GetPM4fProcN mode (Xfer4fBench.ctor X mode doN (f ||| USE_AA)).fFlags := rfl
    have h2 : (Xfer4fBench.ctor X mode doN f).fProcN
        = X.GetPM4fProcN mode (Xfer4fBench.ctor X mode doN f).fFlags := rfl
    rw [h1, h2, hflags]
  · intro m hm
    rw [complement32_USE_AA, Nat.and_assoc]
    congr 1
    rw [Nat.and_comm, Nat.and_pow_two_sub_one_eq_mod]
    exact Nat.mod_eq_of_lt hm

/-- Witness for C12: the flag word with bits 0, 1 and 31 set is looked up as 3. -/
theorem Xfer4fBench_lookup_flags_witness :
    2147483651 < 2 ^ 32 ∧
    (Xfer4fBench.ctor demoXfermode 3 false 2147483651).fFlags = 3 ∧
    (Xfer4fBench.ctor demoXfermode 3 false 2147483651).fFlags
      = (Xfer4fBench.ctor demoXfermode 3 false 3).fFlags :=
  ⟨by decide,
    (Xfer4fBench_lookup_flags demoXfermode 3 false 2147483651 (by decide)).1.trans (by decide),
    ((Xfer4fBench_lookup_flags demoXfermode 3 false 3 (by decide)).2.2.2.2.2.2.2.2.1.symm.trans
      (by decide)).symm⟩

/-! ### The invariant of the filter graph -/

theorem wellFormed_compose_iff (o i : SkColorFilter) (c : Int) :
    wellFormed (compose o i c) = true ↔
      (wellFormed o = true ∧ wellFormed i = true ∧
        c = privateComposedFilterCount i + privateComposedFilterCount o ∧ 2 ≤ c ∧ c ≤ 4) := by
  simp only [wellFormed, Bool.and_eq_true, decide_eq_true_eq, SK_MAX_COMPOSE_COLORFILTER_COUNT]
  tauto

theorem createComposeFilter_wellFormed (V : Env)
    (hV : ∀ k inner g, V.newComposed k inner = some g → wellFormed g = true)
    (o i : SkColorFilter) (wo : wellFormed o = true) (wi : wellFormed i = true) :
    ∃ r, CreateComposeFilter V (some o) (some i) = Except.ok r ∧
      ∀ f, r = some f → wellFormed f = true := by
  cases hook : newComposed V o i with
  | some g =>
    refine ⟨some g, by simp only [CreateComposeFilter, hook], ?_⟩
    intro f hf
    injection hf with hf
    subst hf
    cases o with
    | leaf k => exact hV k i g hook
    | compose a b c => simp [newComposed] at hook
  | none =>
    have ho := one_le_count_of_wellFormed o wo
    have hi := one_le_count_of_wellFormed i wi
    by_cases hgt : privateComposedFilterCount i + privateComposedFilterCount o > 4
    · exact ⟨none, createComposeFilter_exceeds V o i hook hgt, by intro f hf; cases hf⟩
    · refine ⟨_, createComposeFilter_generic V o i hook ho hi (by omega), ?_⟩
      intro f hf
      injection hf with hf
      subst hf
      rw [wellFormed_compose_iff]
      exact ⟨wo, wi, rfl, by omega, by omega⟩

theorem constructible_wellFormed (V : Env)
    (hV : ∀ k inner g, V.newComposed k inner = some g → wellFormed g = true)
    (f : SkColorFilter) (hf : Constructible V f) : wellFormed f = true := by
  induction hf with
  | ofLeaf k => rfl
  | ofCreate o i f _ _ h iho ihi =>
    obtain ⟨r, hr, hwf⟩ := createComposeFilter_wellFormed V hV o i iho ihi
    rw [h] at hr
    injection hr with hr
    exact hwf f hr.symm

theorem wellFormed_nodes (f : SkColorFilter) (hf : wellFormed f = true) :
    ∀ n ∈ nodes f, wellFormed n = true := by
  induction f with
  | leaf k =>
    intro n hn
    simp only [nodes, List.mem_singleton] at hn
    rw [hn]
    rfl
  | compose o i c iho ihi =>
    intro n hn
    have hparts := (wellFormed_compose_iff o i c).1 hf
    simp only [nodes, List.mem_cons, List.mem_append] at hn
    rcases hn with hn | hn | hn
    · rw [hn]
      exact hf
    · exact iho hparts.1 n hn
    · exact ihi hparts.2.1 n hn

theorem wellFormed_count_eq_leafCount (f : SkColorFilter) (hf : wellFormed f = true) :
    privateComposedFilterCount f = leafCount f := by
  induction f with
  | leaf k => rfl
  | compose o i c iho ihi =>
    have hparts := (wellFormed_compose_iff o i c).1 hf
    have ho := iho hparts.1
    have hi := ihi hparts.2.1
    simp only [privateComposedFilterCount, leafCount]
    omega

theorem demoEnv_hooks_return_leaves (k : Nat) (inner g : SkColorFilter)
    (h : demoEnv.newComposed k inner = some g) : wellFormed g = true := by
  simp only [demoEnv, demoNewComposed] at h
  split at h
  · cases h
  · split at h
    · split at h
      · split at h
        · injection h with h
          rw [← h]
          rfl
        · cases h
      · cases h
    · injection h with h
      rw [← h]
      rfl

/-- C13: take an environment whose fusion hooks return well-formed filters, in
particular leaves.  Then every compose node, at any depth, of every filter that can be
obtained from leaves by calls of CreateComposeFilter has a cached count c with
2 <= c <= 4, c is the sum of the counts of outer and inner, and c is the number of
leaves of the tree of the node.  Moreover a call of CreateComposeFilter on two such
filters never fails an assertion of the constructor. -/
theorem constructible_count_invariant (V : Env)
    (hV : ∀ k inner g, V.newComposed k inner = some g → wellFormed g = true) :
    (∀ f, Constructible V f → ∀ n ∈ nodes f, ∀ outer inner c, n = compose outer inner c →
      (2 ≤ c ∧ c ≤ 4 ∧
        c = privateComposedFilterCount outer + privateComposedFilterCount inner ∧
        c = leafCount n)) ∧
    (∀ o i, Constructible V o → Constructible V i →
      ∃ r, CreateComposeFilter V (some o) (some i) = Except.ok r) := by
  constructor
  · intro f hf n hn outer inner c hc
    have hwn := wellFormed_nodes f (constructible_wellFormed V hV f hf) n hn
    have hcount := wellFormed_count_eq_leafCount n hwn
    subst hc
    have hparts := (wellFormed_compose_iff outer inner c).1 hwn
    simp only [privateComposedFilterCount] at hcount
    exact ⟨hparts.2.2.2.1, hparts.2.2.2.2, by omega, hcount⟩
  · intro o i ho hi
    obtain ⟨r, hr, _⟩ := createComposeFilter_wellFormed V hV o i
      (constructible_wellFormed V hV o ho) (constructible_wellFormed V hV i hi)
    exact ⟨r, hr⟩

/-- Witness for C13: the four-leaf demo chain, built by three calls of
CreateComposeFilter, and its root node. -/
theorem constructible_count_invariant_witness :
    Constructible demoEnv demoChain4 ∧
    demoChain4 ∈ nodes demoChain4 ∧
    ((2 : Int) ≤ 4 ∧ (4 : Int) ≤ 4 ∧
      (4 : Int) = privateComposedFilterCount demoPair + privateComposedFilterCount demoPair ∧
      (4 : Int) = leafCount demoChain4) :=
  have hpair : Constructible demoEnv demoPair :=
    Constructible.ofCreate (leaf 0) (leaf 1) demoPair (Constructible.ofLeaf 0)
      (Constructible.ofLeaf 1) (by decide)
  have hchain : Constructible demoEnv demoChain4 :=
    Constructible.ofCreate demoPair demoPair demoChain4 hpair hpair (by decide)
  ⟨hchain, by decide,
    (constructible_count_invariant demoEnv demoEnv_hooks_return_leaves).1 demoChain4 hchain
      demoChain4 (by decide) demoPair demoPair 4 rfl⟩

/-! ### Float support -/

theorem supports4f_children (V : Env) (outer inner : SkColorFilter) (c : Int)
    (h : supports4f V (compose outer inner c) = true) :
    supports4f V inner = true ∧ supports4f V outer = true := by
  simp only [supports4f, getFlags, bne_iff_ne, ne_eq] at h ⊢
  constructor
  · intro h0
    apply h
    rw [Nat.and_assoc, h0, Nat.and_zero]
  · intro h0
    apply h
    rw [Nat.and_comm (getFlags V outer), Nat.and_assoc, h0, Nat.and_zero]

theorem supports4f_composeAssertsHold (V : Env) (f : SkColorFilter)
    (h : supports4f V f = true) : composeAssertsHold V f = true := by
  induction f with
  | leaf k => rfl
  | compose o i c iho ihi =>
    obtain ⟨hi, ho⟩ := supports4f_children V o i c h
    simp only [composeAssertsHold, Bool.and_eq_true]
    exact ⟨⟨⟨hi, ho⟩, ihi hi⟩, iho ho⟩

theorem supports4f_filterSpan4f_ok (V : Env)
    (hleaf : ∀ k, supports4f V (leaf k) = true → (V.filterSpan4f k).isSome = true)
    (f : SkColorFilter) (h : supports4f V f = true) :
    ∀ shader count result, ∃ r, filterSpan4f V f shader count result = Except.ok r := by
  induction f with
  | leaf k =>
    intro shader count result
    have hk := hleaf k h
    cases hov : V.filterSpan4f k with
    | none => simp [hov] at hk
    | some g => exact ⟨g shader count result, by simp only [filterSpan4f, hov]⟩
  | compose o i c iho ihi =>
    intro shader count result
    obtain ⟨hi, ho⟩ := supports4f_children V o i c h
    obtain ⟨r1, hr1⟩ := ihi hi shader count result
    obtain ⟨r2, hr2⟩ := iho ho r1 count r1
    exact ⟨r2, by simp only [filterSpan4f, SkASSERT, hi, ho, if_true, hr1, hr2]⟩

/-- C14: a compose node that advertises float support has two children that advertise
it, so its two assertions in filterSpan4f hold, and so do those of every compose node
beneath it; if every leaf that advertises float support overrides filterSpan4f, the call
then returns a span.  Conversely a child without float support leaves the compose node
without it. -/
theorem compose_supports4f_sufficient (V : Env) (outer inner : SkColorFilter) (c : Int) :
    (supports4f V (compose outer inner c) = true →
      supports4f V inner = true ∧ supports4f V outer = true) ∧
    (supports4f V (compose outer inner c) = true →
      composeAssertsHold V (compose outer inner c) = true) ∧
    (supports4f V (compose outer inner c) = true →
      (∀ k, supports4f V (leaf k) = true → (V.filterSpan4f k).isSome = true) →
      ∀ shader count result,
        ∃ r, filterSpan4f V (compose outer inner c) shader count result = Except.ok r) ∧
    ((supports4f V inner = false ∨ supports4f V outer = false) →
      supports4f V (compose outer inner c) = false) := by
  refine ⟨supports4f_children V outer inner c,
    supports4f_composeAssertsHold V (compose outer inner c), ?_, ?_⟩
  · intro h hleaf
    exact supports4f_filterSpan4f_ok V hleaf (compose outer inner c) h
  · intro h
    cases hs : supports4f V (compose outer inner c) with
    | false => rfl
    | true =>
      obtain ⟨hi, ho⟩ := supports4f_children V outer inner c hs
      rcases h with h | h
      · rw [hi] at h
        cases h
      · rw [ho] at h
        cases h

/-- Witness for C14: a three-leaf demo chain of float-capable leaves advertises float
support, its assertions hold at both compose nodes, and a chain with leaf 1, which lacks
float support, does not advertise it. -/
theorem compose_supports4f_sufficient_witness :
    supports4f demoEnv (compose (compose (leaf 2) (leaf 3) 2) (leaf 6) 3) = true ∧
    composeAssertsHold demoEnv (compose (compose (leaf 2) (leaf 3) 2) (leaf 6) 3) = true ∧
    supports4f demoEnv (leaf 1) = false ∧
    supports4f demoEnv (compose (leaf 2) (leaf 1) 2) = false :=
  ⟨by decide,
    (compose_supports4f_sufficient demoEnv (compose (leaf 2) (leaf 3) 2) (leaf 6) 3).2.1
      (by decide),
    by decide,
    (compose_supports4f_sufficient demoEnv (leaf 2) (leaf 1) 2).2.2.2 (Or.inl (by decide))⟩

/-! ### Chained compositions -/

theorem count_compose (o i : SkColorFilter) (c : Int) :
    privateComposedFilterCount (compose o i c) = c := rfl

/-- C15: for present (well-formed) filters A, B, C whose counts add up to at most 4 and
with no fusion hook firing, both CreateComposeFilter(CreateComposeFilter(A, B), C) and
CreateComposeFilter(A, CreateComposeFilter(B, C)) return a filter, and the two filters
have the same composed count, the same flags and the same filterSpan result on every
span. -/
theorem createComposeFilter_assoc (V : Env) (A B C : SkColorFilter)
    (wA : wellFormed A = true) (wB : wellFormed B = true) (wC : wellFormed C = true)
    (hAB : newComposed V A B = none) (hBC : newComposed V B C = none)
    (hABC : newComposed V A
      (compose B C (privateComposedFilterCount C + privateComposedFilterCount B)) = none)
    (hsum : privateComposedFilterCount A + privateComposedFilterCount B
      + privateComposedFilterCount C ≤ 4) :
    ∃ ab bc l r,
      CreateComposeFilter V (some A) (some B) = Except.ok (some ab) ∧
      CreateComposeFilter V (some ab) (some C) = Except.ok (some l) ∧
      CreateComposeFilter V (some B) (some C) = Except.ok (some bc) ∧
      CreateComposeFilter V (some A) (some bc) = Except.ok (some r) ∧
      privateComposedFilterCount l = privateComposedFilterCount r ∧
      getFlags V l = getFlags V r ∧
      ∀ shader count result,
        filterSpan V l shader count result = filterSpan V r shader count result := by
  have hA := one_le_count_of_wellFormed A wA
  have hB := one_le_count_of_wellFormed B wB
  have hC := one_le_count_of_wellFormed C wC
  refine ⟨compose A B (privateComposedFilterCount B + privateComposedFilterCount A),
    compose B C (privateComposedFilterCount C + privateComposedFilterCount B),
    compose (compose A B (privateComposedFilterCount B + privateComposedFilterCount A)) C
      (privateComposedFilterCount C
        + (privateComposedFilterCount B + privateComposedFilterCount A)),
    compose A (compose B C (privateComposedFilterCount C + privateComposedFilterCount B))
      ((privateComposedFilterCount C + privateComposedFilterCount B)
        + privateComposedFilterCount A),
    ?_, ?_, ?_, ?_, ?_, ?_, ?_⟩
  · exact createComposeFilter_generic V A B hAB hA hB (by omega)
  · exact createComposeFilter_generic V _ C rfl
      (by rw [count_compose]; omega) hC
      (by rw [count_compose]; omega)
  · exact createComposeFilter_generic V B C hBC hB hC (by omega)
  · exact createComposeFilter_generic V A _ hABC hA
      (by rw [count_compose]; omega)
      (by rw [count_compose]; omega)
  · rw [count_compose, count_compose]
    omega
  · simp only [getFlags, Nat.and_assoc]
  · intro shader count result
    rfl

/-- Witness for C15: the demo leaves 0, 1 and 2, nested to the left and to the right. -/
theorem createComposeFilter_assoc_witness :
    ∃ ab bc l r,
      CreateComposeFilter demoEnv (some (leaf 0)) (some (leaf 1)) = Except.ok (some ab) ∧
      CreateComposeFilter demoEnv (some ab) (some (leaf 2)) = Except.ok (some l) ∧
      CreateComposeFilter demoEnv (some (leaf 1)) (some (leaf 2)) = Except.ok (some bc) ∧
      CreateComposeFilter demoEnv (some (leaf 0)) (some bc) = Except.ok (some r) ∧
      privateComposedFilterCount l = privateComposedFilterCount r ∧
      getFlags demoEnv l = getFlags demoEnv r ∧
      ∀ shader count result,
        filterSpan demoEnv l shader count result = filterSpan demoEnv r shader count result :=
  createComposeFilter_assoc demoEnv (leaf 0) (leaf 1) (leaf 2) (by decide) (by decide)
    (by decide) (by decide) (by decide) (by decide) (by decide)

theorem createComposeFilter_failure_chain (V : Env) (A : SkColorFilter) (b c : Nat)
    (hA : privateComposedFilterCount A = 4) (hook : V.newComposed b (leaf c) = none) :
    CreateComposeFilter V (some A) (some (leaf b)) = Except.ok none ∧
    CreateComposeFilter V none (some (leaf c)) = Except.ok (some (leaf c)) ∧
    CreateComposeFilter V (some (leaf b)) (some (leaf c))
      = Except.ok (some (compose (leaf b) (leaf c) 2)) ∧
    CreateComposeFilter V (some A) (some (compose (leaf b) (leaf c) 2)) = Except.ok none := by
  have hAhook : ∀ inner, newComposed V A inner = none := by
    intro inner
    cases A with
    | leaf k => simp [privateComposedFilterCount] at hA
    | compose o i n => rfl
  refine ⟨?_, rfl, ?_, ?_⟩
  · apply createComposeFilter_exceeds V A (leaf b) (hAhook _)
    rw [hA]
    simp [privateComposedFilterCount]
  · exact createComposeFilter_generic V (leaf b) (leaf c) hook
      (by simp [privateComposedFilterCount]) (by simp [privateComposedFilterCount])
      (by simp [privateComposedFilterCount])
  · apply createComposeFilter_exceeds V A _ (hAhook _)
    rw [hA, count_compose]
    decide

/-- C16: there are present filters A, B, C, with A a compose chain of count 4, B and C
leaves and no fusion hook firing, such that CreateComposeFilter(A, B) returns no filter,
feeding that result on as outer with C as inner returns C itself, and
CreateComposeFilter(A, CreateComposeFilter(B, C)) returns no filter. -/
theorem createComposeFilter_failure_indistinguishable :
    ∃ (V : Env) (A B C : SkColorFilter),
      wellFormed A = true ∧ privateComposedFilterCount A = 4 ∧
      (∃ b c, B = leaf b ∧ C = leaf c) ∧
      newComposed V A B = none ∧ newComposed V B C = none ∧
      CreateComposeFilter V (some A) (some B) = Except.ok none ∧
      (∀ ab, CreateComposeFilter V (some A) (some B) = Except.ok ab →
        CreateComposeFilter V ab (some C) = Except.ok (some C)) ∧
      (∃ bc, CreateComposeFilter V (some B) (some C) = Except.ok (some bc) ∧
        newComposed V A bc = none ∧
        CreateComposeFilter V (some A) (some bc) = Except.ok none) := by
  have h := createComposeFilter_failure_chain demoEnv demoChain4 2 3 (by decide) (by decide)
  refine ⟨demoEnv, demoChain4, leaf 2, leaf 3, by decide, by decide, ⟨2, 3, rfl, rfl⟩,
    by decide, by decide, h.1, ?_, ⟨compose (leaf 2) (leaf 3) 2, h.2.2.1, by decide, h.2.2.2⟩⟩
  intro ab hab
  rw [h.1] at hab
  injection hab with hab
  rw [← hab]
  exact h.2.1

/-! ### The base-class float entry point -/

/-- C17: for a filter that does not override filterSpan4f, a call of filterSpan4f fails
an assertion whatever the spans and the count are: the first assertion when the filter
advertises float support, the second when it does not.  In neither branch is there a
written result span. -/
theorem base_filterSpan4f_asserts (V : Env) (k : Nat) (shader : List SkPM4f) (count : Int)
    (result : List SkPM4f) (hno : V.filterSpan4f k = none) :
    (supports4f V (leaf k) = true →
      filterSpan4f V (leaf k) shader count result
        = Except.error "colorfilter supports4f but didn't override") ∧
    (supports4f V (leaf k) = false →
      filterSpan4f V (leaf k) shader count result
        = Except.error "filterSpan4f called but not supported") ∧
    (∀ r, filterSpan4f V (leaf k) shader count result ≠ Except.ok r) ∧
    (∀ this r, baseFilterSpan4f V this shader count result ≠ Except.ok r) := by
  have hbase : ∀ this r, baseFilterSpan4f V this shader count result ≠ Except.ok r := by
    intro this r
    unfold baseFilterSpan4f SkASSERT
    cases supports4f V this <;> simp
  have hleaf : filterSpan4f V (leaf k) shader count result
      = baseFilterSpan4f V (leaf k) shader count result := by
    simp only [filterSpan4f, hno]
  refine ⟨?_, ?_, ?_, hbase⟩
  · intro h
    rw [hleaf]
    simp [baseFilterSpan4f, SkASSERT, h]
  · intro h
    rw [hleaf]
    simp [baseFilterSpan4f, SkASSERT, h]
  · intro r
    rw [hleaf]
    exact hbase (leaf k) r

/-- Witness for C17: without overrides, leaf 2 advertises float support and leaf 1 does
not; both calls stop at an assertion. -/
theorem base_filterSpan4f_asserts_witness :
    noOverrideEnv.filterSpan4f 2 = none ∧ supports4f noOverrideEnv (leaf 2) = true ∧
    filterSpan4f noOverrideEnv (leaf 2) [SkPM4f.mk 1 2 3 4] 1 [SkPM4f.mk 0 0 0 0]
      = Except.error "colorfilter supports4f but didn't override" ∧
    noOverrideEnv.filterSpan4f 1 = none ∧ supports4f noOverrideEnv (leaf 1) = false ∧
    filterSpan4f noOverrideEnv (leaf 1) [SkPM4f.mk 1 2 3 4] 1 [SkPM4f.mk 0 0 0 0]
      = Except.error "filterSpan4f called but not supported" :=
  ⟨rfl, by decide,
    (base_filterSpan4f_asserts noOverrideEnv 2 [SkPM4f.mk 1 2 3 4] 1 [SkPM4f.mk 0 0 0 0] rfl).1
      (by decide),
    rfl, by decide,
    (base_filterSpan4f_asserts noOverrideEnv 1 [SkPM4f.mk 1 2 3 4] 1 [SkPM4f.mk 0 0 0 0]
      rfl).2.1 (by decide)⟩

/-! ### The coverage ramp of the benchmark -/

theorem coverage_le (i : Nat) (hi : i < Xfer4fBench.N) : Xfer4fBench.coverage i ≤ 255 := by
  simp only [Xfer4fBench.coverage, Xfer4fBench.N] at hi ⊢
  omega

theorem coverage_mono (i j : Nat) (hij : i ≤ j) :
    Xfer4fBench.coverage i ≤ Xfer4fBench.coverage j := by
  simp only [Xfer4fBench.coverage, Xfer4fBench.N]
  omega

theorem ctor_fAAStorage (X : SkXfermode) (mode : Nat) (doN : Bool) (flags : Nat) (i : Nat)
    (hi : i < Xfer4fBench.N) :
    (Xfer4fBench.ctor X mode doN flags).fAAStorage[i]? = some (Xfer4fBench.coverage i) := by
  have hle := coverage_le i hi
  simp only [Xfer4fBench.ctor, List.getElem?_map, List.getElem?_range hi, Option.map_some']
  rw [Nat.mod_eq_of_lt (by omega)]

/-- C18: the constructor fills fAAStorage with N = 1000 entries; entry i holds
i * 255 / (N - 1), which is at most 255 and so is stored in 8 bits without loss.  The
first entry is 0, the last is 255, the entries never decrease, and every value from 0 to
255 is the entry of some index. -/
theorem Xfer4fBench_coverage_ramp (X : SkXfermode) (mode : Nat) (doN : Bool) (flags : Nat) :
    Xfer4fBench.N = 1000 ∧
    (Xfer4fBench.ctor X mode doN flags).fAAStorage.length = Xfer4fBench.N ∧
    (∀ i, i < Xfer4fBench.N →
      (i * 255 / (Xfer4fBench.N - 1) ≤ 255 ∧
        (Xfer4fBench.ctor X mode doN flags).fAAStorage[i]?
          = some (i * 255 / (Xfer4fBench.N - 1)))) ∧
    (Xfer4fBench.ctor X mode doN flags).fAAStorage[0]? = some 0 ∧
    (Xfer4fBench.ctor X mode doN flags).fAAStorage[Xfer4fBench.N - 1]? = some 255 ∧
    (∀ i j, i ≤ j → j < Xfer4fBench.N →
      ∀ x y, (Xfer4fBench.ctor X mode doN flags).fAAStorage[i]? = some x →
        (Xfer4fBench.ctor X mode doN flags).fAAStorage[j]? = some y → x ≤ y) ∧
    (∀ v, v ≤ 255 →
      ∃ i, i < Xfer4fBench.N ∧
        (Xfer4fBench.ctor X mode doN flags).fAAStorage[i]? = some v) := by
  refine ⟨rfl, ?_, ?_, ?_, ?_, ?_, ?_⟩
  · simp [Xfer4fBench.ctor]
  · intro i hi
    exact ⟨coverage_le i hi, ctor_fAAStorage X mode doN flags i hi⟩
  · exact ctor_fAAStorage X mode doN flags 0 (by decide)
  · exact ctor_fAAStorage X mode doN flags (Xfer4fBench.N - 1) (by decide)
  · intro i j hij hj x y hx hy
    rw [ctor_fAAStorage X mode doN flags i (by omega)] at hx
    rw [ctor_fAAStorage X mode doN flags j hj] at hy
    injection hx with hx
    injection hy with hy
    rw [← hx, ← hy]
    exact coverage_mono i j hij
  · intro v hv
    have hlt : (v * 999 + 254) / 255 < Xfer4fBench.N := by
      simp only [Xfer4fBench.N]
      omega
    refine ⟨(v * 999 + 254) / 255, hlt, ?_⟩
    rw [ctor_fAAStorage X mode doN flags _ hlt]
    congr 1
    simp only [Xfer4fBench.coverage, Xfer4fBench.N]
    omega

/-- Witness for C18: index 500 holds 127, and the value 128 is held by index 502. -/
theorem Xfer4fBench_coverage_ramp_witness :
    500 < Xfer4fBench.N ∧
    (500 * 255 / (Xfer4fBench.N - 1) ≤ 255 ∧
      (Xfer4fBench.ctor demoXfermode 0 false 0).fAAStorage[500]?
        = some (500 * 255 / (Xfer4fBench.N - 1))) ∧
    500 * 255 / (Xfer4fBench.N - 1) = 127 ∧
    (∃ i, i < Xfer4fBench.N ∧
      (Xfer4fBench.ctor demoXfermode 0 false 0).fAAStorage[i]? = some 128) :=
  ⟨by decide, (Xfer4fBench_coverage_ramp demoXfermode 0 false 0).2.2.1 500 (by decide),
    by decide, (Xfer4fBench_coverage_ramp demoXfermode 0 false 0).2.2.2.2.2.2 128 (by decide)⟩
